import Mathlib

/-!
Verification development for the `agency-router` worker of the
`openclaw-assistant` repository.

The TypeScript sources embedded here:
- `src/workers/agency-router/src/keyword-matcher.ts` (`KeywordMatcher`)
- `src/workers/agency-router/src/complexity-classifier.ts` (`ComplexityClassifier`)
- `src/workers/agency-router/src/router-engine.ts` (`RouterEngine`)
- `src/workers/agency-router/src/cache.ts` (`RoutingCache`, `CachedRoutingDecision`)
- `src/workers/agency-router/src/index.ts` (the `POST /api/route` handler)

Modelling conventions:
- JavaScript numbers are embedded as exact rationals (`ℚ`); every constant in
  the sources is a short decimal, and no claim hinges on binary floating-point
  rounding.
- Strings are Lean `String`s; `toLowerCase`, `\s`, `\w` and `trim` are embedded
  with their ASCII behaviour, matching every string literal in the sources.
- `performance.now()` and `new Date().toISOString()` are the only impure inputs
  of `RouterEngine.route`; they are passed in as explicit `latency`/`timestamp`
  arguments.
- `Date.now()` in the cache is passed as an explicit `now` argument (epoch ms).
-/

set_option maxRecDepth 100000

namespace AgencyRouter

/-! ### ASCII string helpers (JS `toLowerCase`, `\s`, `\w`, `includes`) -/

/-- ASCII whitespace, covering the characters JS `\s` can meet in the sources. -/
def isWs (c : Char) : Bool :=
  c = ' ' || c = '\t' || c = '\n' || c = '\r'

/-- JS `\w` word characters: `[A-Za-z0-9_]`. -/
def isWordChar (c : Char) : Bool :=
  ('a' ≤ c && c ≤ 'z') || ('A' ≤ c && c ≤ 'Z') || ('0' ≤ c && c ≤ '9') || c = '_'

/-- `text.toLowerCase()` (ASCII range, as in every keyword table of the sources). -/
def jsLower (s : String) : String :=
  ⟨s.data.map Char.toLower⟩

/-- Does `p` start the list `s`? -/
def startsWithL (p s : List Char) : Bool :=
  match p, s with
  | [], _ => true
  | _ :: _, [] => false
  | a :: as, b :: bs => a = b && startsWithL as bs

/-- Is `needle` a contiguous sublist of `hay`? -/
def containsL (hay needle : List Char) : Bool :=
  match hay with
  | [] => needle.isEmpty
  | _ :: t => startsWithL needle hay || containsL t needle

/-- JS `hay.includes(needle)`. -/
def strIncludes (hay needle : String) : Bool :=
  containsL hay.data needle.data

/-- Keep a string whose `trim()` is non-empty (JS truthiness of `s.trim()`). -/
def trimNonempty (s : String) : Bool :=
  s.data.any (fun c => !(isWs c))

/-- Split a character list at every separator character, like JS
`String.prototype.split` with a single-character-class regex: empty pieces
are kept (the callers filter them out). -/
def splitChars (p : Char → Bool) : List Char → List String
  | [] => [""]
  | c :: cs =>
    if p c then "" :: splitChars p cs
    else
      match splitChars p cs with
      | [] => [(⟨[c]⟩ : String)]
      | w :: ws => (⟨c :: w.data⟩ : String) :: ws

/-- JS `s.split(regex)` over a character class. -/
def jsSplit (s : String) (p : Char → Bool) : List String :=
  splitChars p s.data

/-! ### KeywordMatcher (`keyword-matcher.ts`) -/

structure KeywordMatch where
  keyword : String
  agent : String
  confidence : ℚ
  domain : String
  deriving Repr, DecidableEq

structure AgentScore where
  agent : String
  score : ℚ
  matches' : List KeywordMatch
  primaryDomain : String
  deriving Repr, DecidableEq

/-- `KEYWORD_SETS`: agent id ↦ (domain ↦ keywords), in source order. -/
def keywordSets : List (String × List (String × List String)) :=
  [ ("codegen",
      [("implementation",
        ["implement", "build", "code", "develop", "create", "write",
         "function", "method", "class", "component", "api", "endpoint",
         "route", "debug", "fix", "error", "bug", "optimize", "refactor",
         "performance", "test", "unit test", "integration test", "deploy",
         "release", "setup", "configure", "installation", "library",
         "framework", "javascript", "typescript", "python", "node.js",
         "react", "vue", "angular", "rust", "go", "java", "database",
         "sql", "query"])]),
    ("planning",
      [("strategy",
        ["plan", "strategy", "roadmap", "timeline", "project", "workflow",
         "process", "architecture", "design", "design document", "proposal",
         "requirement", "scope", "milestone", "deadline", "goal",
         "objective", "task", "deliverable", "stakeholder", "team",
         "resource", "budget", "cost", "estimate", "schedule", "phase",
         "sprint", "epic", "user story", "acceptance criteria", "risk",
         "constraint", "dependency", "communication", "review", "approval",
         "governance"])]),
    ("security",
      [("security",
        ["security", "vulnerability", "exploit", "attack", "threat", "risk",
         "penetration test", "audit", "compliance", "encryption",
         "authentication", "authorization", "permission", "access control",
         "sensitive data", "privacy", "breach", "secure", "secure coding",
         "owasp", "cwe", "cve", "malware", "phishing", "injection", "xss",
         "csrf", "token", "jwt", "api key", "credential", "secret", "tls",
         "ssl", "certificate", "firewall", "ddos", "intrusion", "forensic",
         "incident response", "hardening", "defense"])]),
    ("infrastructure",
      [("operations",
        ["infrastructure", "deploy", "cloud", "aws", "azure", "gcp",
         "cloudflare", "kubernetes", "docker", "container", "ci/cd",
         "github actions", "jenkins", "gitlab", "devops", "terraform",
         "infrastructure as code", "monitoring", "logging", "observability",
         "metrics", "alerting", "uptime", "sla", "disaster recovery",
         "backup", "load balancer", "cdn", "database", "cache", "queue",
         "message broker", "api gateway", "reverse proxy", "ssl",
         "certificate", "dns", "domain", "network", "scaling",
         "auto-scaling"])]) ]

def defaultConfidence : ℚ := 85/100
def keywordWeight : ℚ := 1
def compoundKeywordBoost : ℚ := 15/100

/-- `tokenize`: split on whitespace, strip non-word characters, keep length > 2. -/
def tokenize (text : String) : List String :=
  ((jsSplit text (fun c => isWs c)).map
      (fun w => (⟨w.data.filter (fun c => isWordChar c)⟩ : String))).filter
    (fun w => w.length > 2)

/-- `compoundPatterns` of `extractCompoundKeywords`. -/
def compoundPatterns : List String :=
  ["design document", "unit test", "integration test", "user story",
   "acceptance criteria", "api gateway", "reverse proxy", "load balancer",
   "message broker", "disaster recovery", "auto scaling",
   "infrastructure as code", "ci/cd", "github actions", "penetration test",
   "access control", "sensitive data", "secure coding", "api key",
   "jwt token", "ssl certificate", "node.js", "sql query"]

/-- `extractCompoundKeywords`. -/
def extractCompoundKeywords (text : String) : List String :=
  compoundPatterns.filter (fun p => strIncludes text p)

/-- One step of the per-keyword loop: a token-set hit contributes a match and
`DEFAULT_CONFIDENCE`; a raw-substring hit contributes
`KEYWORD_WEIGHT * COMPOUND_KEYWORD_BOOST`. -/
def keywordStep (normalizedText : String) (allKeywords : List String)
    (agentId domain : String) (acc : List KeywordMatch × ℚ) (kw : String) :
    List KeywordMatch × ℚ :=
  let acc1 :=
    if allKeywords.contains kw then
      (acc.1 ++ [⟨kw, agentId, defaultConfidence, domain⟩],
       acc.2 + defaultConfidence)
    else acc
  if strIncludes normalizedText kw then
    (acc1.1, acc1.2 + keywordWeight * compoundKeywordBoost)
  else acc1

/-- The inner loop over one keyword group of one agent: returns the matches it
pushed and this domain's score contribution. -/
def scoreDomain (normalizedText : String) (allKeywords : List String)
    (agentId domain : String) (keywords : List String) :
    List KeywordMatch × ℚ :=
  keywords.foldl (keywordStep normalizedText allKeywords agentId domain) ([], 0)

/-- Stable descending insertion: a new element goes after all elements with a
`≥` key, matching JS stable `toSorted` with comparator `(a, b) => f b - f a`. -/
def insertDescBy {α : Type} (f : α → ℚ) (x : α) : List α → List α
  | [] => [x]
  | y :: ys => if f y ≥ f x then y :: insertDescBy f x ys else x :: y :: ys

/-- Stable sort, descending by `f`. -/
def sortDescBy {α : Type} (f : α → ℚ) (l : List α) : List α :=
  l.foldl (fun acc x => insertDescBy f x acc) []

/-- The per-agent body of `scoreMessage`'s outer loop: accumulate matches,
`totalScore` and `domainScores`, normalize to 0–100 and pick the primary
domain (stable descending sort of domain entries, `"unknown"` when empty). -/
def scoreAgentEntry (normalizedText : String) (allKeywords : List String)
    (entry : String × List (String × List String)) : AgentScore :=
  let agentId := entry.1
  let res := entry.2.foldl
    (fun (acc : List KeywordMatch × ℚ × List (String × ℚ)) d =>
      let ds := scoreDomain normalizedText allKeywords agentId d.1 d.2
      (acc.1 ++ ds.1, acc.2.1 + ds.2, acc.2.2 ++ [(d.1, ds.2)]))
    ([], 0, [])
  let normalizedScore := min 100 (res.2.1 / 10 * 10)
  let primaryDomain :=
    match (sortDescBy (fun p => p.2) res.2.2).head? with
    | some d => d.1
    | none => "unknown"
  ⟨agentId, normalizedScore, res.1, primaryDomain⟩

/-- `KeywordMatcher.scoreMessage`. -/
def scoreMessage (text : String) : List AgentScore :=
  let normalizedText := jsLower text
  let words := tokenize normalizedText
  let compounds := extractCompoundKeywords normalizedText
  let allKeywords := words ++ compounds
  sortDescBy (fun s => s.score)
    (keywordSets.map (scoreAgentEntry normalizedText allKeywords))

/-- `KeywordMatcher.getConfidenceScore`. -/
def getConfidenceScore (scores : List AgentScore) : ℚ :=
  match scores with
  | [] => 0
  | top :: rest =>
    let topScore := top.score
    let secondScore := ((rest.head?.map AgentScore.score).getD 0)
    if 50 ≤ topScore ∧ 20 ≤ topScore - secondScore then
      min (95/100) (7/10 + topScore / 100 * (25/100))
    else if 30 ≤ topScore then
      6/10 + topScore / 100 * (35/100)
    else
      min (1/2) (topScore / 100)

/-! ### ComplexityClassifier (`complexity-classifier.ts`) -/

inductive Level where
  | simple
  | moderate
  | complex
  deriving Repr, DecidableEq

def levelToString : Level → String
  | .simple => "simple"
  | .moderate => "moderate"
  | .complex => "complex"

structure ComplexityAssessment where
  level : Level
  score : Nat
  factors : List String
  estimatedTokens : Nat
  suggestedAgent : String
  deriving Repr, DecidableEq

/-- `COMPLEXITY_INDICATORS.complex.keywords`. -/
def complexIndicatorKeywords : List String :=
  ["design", "architect", "optimize", "refactor", "migrate", "distributed",
   "performance", "scalability", "security", "compliance", "multi-step",
   "strategic", "comprehensive", "advanced", "custom"]

/-- `COMPLEXITY_INDICATORS.moderate.keywords`. -/
def moderateIndicatorKeywords : List String :=
  ["implement", "integrate", "configure", "debug", "troubleshoot", "modify",
   "update", "improve", "enhance", "add", "change", "convert", "analyze",
   "review"]

/-- `AGENT_COMPLEXITY_MAPPING`. -/
def agentComplexityMapping : String → Option Level
  | "codegen" => some .moderate
  | "planning" => some .complex
  | "security" => some .complex
  | "infrastructure" => some .complex
  | _ => none

/-- `detectTopics`: topic ↦ keyword probes, checked as raw substrings. -/
def topicKeywordTable : List (String × List String) :=
  [("frontend", ["react", "vue", "angular", "component", "ui", "ux"]),
   ("backend", ["node", "python", "api", "database", "server"]),
   ("devops", ["kubernetes", "docker", "ci/cd", "deploy", "cloud"]),
   ("security", ["security", "vulnerability", "encryption", "auth"]),
   ("database", ["sql", "mongodb", "postgres", "query", "schema"])]

def detectTopics (text : String) : List String :=
  (topicKeywordTable.filter
    (fun t => t.2.any (fun k => strIncludes text k))).map (fun t => t.1)

/-- The regex `/```|<|>|\x7b|\x7d|\[|\]|=>|;/` of the code-block check: any of
the alternatives occurs in the raw text. -/
def hasCodeBlocksCheck (text : String) : Bool :=
  let bt := String.singleton (Char.ofNat 96)
  (strIncludes text (bt ++ bt ++ bt)) ||
  (strIncludes text "<") || (strIncludes text ">") ||
  (strIncludes text (String.singleton (Char.ofNat 123))) ||
  (strIncludes text (String.singleton (Char.ofNat 125))) ||
  (strIncludes text "[") || (strIncludes text "]") ||
  (strIncludes text "=>") || (strIncludes text ";")

/-- The regex `/must|should|cannot|don't|constraint|requirement/`. -/
def hasConstraintsCheck (text : String) : Bool :=
  (strIncludes text "must") || (strIncludes text "should") ||
  (strIncludes text "cannot") || (strIncludes text ("don" ++ "\x27" ++ "t")) ||
  (strIncludes text "constraint") || (strIncludes text "requirement")

/-- `ComplexityClassifier.suggestAgent`. -/
def suggestAgent : Level → String
  | .simple => "codegen"
  | .moderate => "codegen"
  | .complex => "planning"

/-- `ComplexityClassifier.assessComplexity` (the unused local `lines`/`words`
of the source are dead code and not reproduced). -/
def assessComplexity (text : String) (agent : Option String) :
    ComplexityAssessment :=
  let normalizedText := jsLower text
  let sentences :=
    (jsSplit text (fun c => c = '.' || c = '!' || c = '?')).filter trimNonempty
  -- length indicators
  let s1 : Nat := if text.length > 1500 then 2 else if text.length > 500 then 1 else 0
  let f1 : List String :=
    if text.length > 1500 then ["Long message (>1500 chars)"]
    else if text.length > 500 then ["Medium message (500-1500 chars)"]
    else []
  -- sentence count
  let s2 : Nat := if sentences.length > 10 then 2 else if sentences.length > 5 then 1 else 0
  let f2 : List String :=
    if sentences.length > 10 then ["Multiple requirements (>10 sentences)"]
    else if sentences.length > 5 then ["Several requirements (5-10 sentences)"]
    else []
  -- complex keywords
  let complexMatches :=
    complexIndicatorKeywords.filter (fun k => strIncludes normalizedText k)
  let s3 := complexMatches.length * 2
  let f3 : List String :=
    if complexMatches.length > 0 then
      ["Complex indicators: " ++ String.intercalate ", " (complexMatches.take 3)]
    else []
  -- moderate keywords
  let moderateMatches :=
    moderateIndicatorKeywords.filter (fun k => strIncludes normalizedText k)
  let s4 := moderateMatches.length * 1
  let f4 : List String :=
    if moderateMatches.length > 0 then
      ["Moderate indicators: " ++ String.intercalate ", " (moderateMatches.take 3)]
    else []
  -- code blocks / technical syntax
  let s5 : Nat := if hasCodeBlocksCheck text then 1 else 0
  let f5 : List String :=
    if hasCodeBlocksCheck text then ["Contains code or technical syntax"] else []
  -- multiple topics
  let topics := detectTopics normalizedText
  let s6 : Nat := if topics.length > 2 then 1 else 0
  let f6 : List String :=
    if topics.length > 2 then
      ["Multiple topics: " ++ String.intercalate ", " topics]
    else []
  -- explicit constraints
  let s7 : Nat := if hasConstraintsCheck normalizedText then 1 else 0
  let f7 : List String :=
    if hasConstraintsCheck normalizedText then ["Contains explicit constraints"]
    else []
  let complexityScore := s1 + s2 + s3 + s4 + s5 + s6 + s7
  let level0 : Level :=
    if complexityScore ≥ 6 then .complex
    else if complexityScore ≥ 3 then .moderate
    else .simple
  -- agent-specific adjustment
  let adjusted : Level × List String :=
    match agent with
    | some a =>
      if agentComplexityMapping a = some Level.complex ∧ level0 = Level.simple then
        (.moderate, ["Adjusted for " ++ a ++ " agent complexity baseline"])
      else (level0, [])
    | none => (level0, [])
  let estimatedTokens := (text.length + 3) / 4
  { level := adjusted.1
    score := complexityScore
    factors := f1 ++ f2 ++ f3 ++ f4 ++ f5 ++ f6 ++ f7 ++ adjusted.2
    estimatedTokens := estimatedTokens
    suggestedAgent := suggestAgent adjusted.1 }

/-- `ComplexityClassifier.estimateCost` (price per million tokens; the source
defaults the price to 3). -/
def classifierEstimateCost (c : ComplexityAssessment)
    (modelPricingPerMToken : ℚ) : ℚ :=
  let tokens : ℚ := c.estimatedTokens
  let baseCost := tokens / 1000000 * modelPricingPerMToken
  let multiplier : ℚ :=
    match c.level with
    | .simple => 1
    | .moderate => 3/2
    | .complex => 5/2
  baseCost * multiplier

/-! ### RouterEngine (`router-engine.ts`) -/

structure Agent where
  id : String
  name : String
  description : String
  keywords : List String
  domains : List String
  costPerToken : Option ℚ
  maxTokens : Option Nat
  enabled : Bool
  deriving Repr, DecidableEq

structure SkillFile where
  id : String
  name : String
  agent : String
  description : String
  keywords : List String
  deriving Repr, DecidableEq

structure RoutingDecision where
  agent : String
  confidence : ℚ
  reason : String
  skillFilesUsed : List String
  estimatedCost : ℚ
  complexity : String
  latency : ℚ
  timestamp : String
  matchedKeywords : List String
  deriving Repr, DecidableEq

/-- `STATIC_AGENTS`. -/
def staticAgents : List Agent :=
  [ { id := "codegen", name := "Code Generation Agent",
      description := "Expert in code implementation, debugging, and testing",
      keywords := ["implement", "build", "code", "debug", "test", "function",
                   "api", "optimize", "refactor"],
      domains := ["javascript", "typescript", "python", "rust", "go"],
      costPerToken := some (3/1000), maxTokens := some 4000, enabled := true },
    { id := "planning", name := "Planning & Strategy Agent",
      description := "Expert in project planning, roadmapping, and strategic thinking",
      keywords := ["plan", "strategy", "roadmap", "design", "architecture",
                   "timeline", "proposal"],
      domains := ["project management", "architecture"],
      costPerToken := some (2/1000), maxTokens := some 8000, enabled := true },
    { id := "security", name := "Security & Compliance Agent",
      description := "Expert in security analysis, threat modeling, and compliance",
      keywords := ["security", "vulnerability", "exploit", "threat",
                   "penetration", "encryption", "compliance"],
      domains := ["security", "compliance"],
      costPerToken := some (4/1000), maxTokens := some 6000, enabled := true },
    { id := "infrastructure", name := "Infrastructure & DevOps Agent",
      description := "Expert in infrastructure, deployment, and operations",
      keywords := ["infrastructure", "deploy", "cloud", "kubernetes", "docker",
                   "ci/cd", "monitoring"],
      domains := ["cloud", "devops", "kubernetes"],
      costPerToken := some (3/1000), maxTokens := some 5000, enabled := true } ]

/-- `STATIC_SKILL_FILES`. -/
def staticSkillFiles : List SkillFile :=
  [ { id := "task-complexity-assessment", name := "Task Complexity Assessment",
      agent := "planning",
      description := "Assess complexity and determine routing path",
      keywords := ["complexity", "assessment", "routing"] },
    { id := "agent-codegen", name := "Code Generation Strategies",
      agent := "codegen",
      description := "Strategies for code implementation",
      keywords := ["code", "generate", "implement"] },
    { id := "keyword-matching-strategy", name := "Keyword Matching Strategy",
      agent := "planning",
      description := "Strategy for keyword-based routing",
      keywords := ["matching", "strategy", "routing"] },
    { id := "security-threat-modeling", name := "Security Threat Modeling",
      agent := "security",
      description := "Threat modeling and risk assessment",
      keywords := ["threat", "security", "risk"] },
    { id := "infrastructure-deployment", name := "Infrastructure Deployment",
      agent := "infrastructure",
      description := "Deployment strategies and patterns",
      keywords := ["deploy", "infrastructure", "cloud"] } ]

def fallbackAgent : String := "planning"

/-- Insert-or-replace with the key kept at its original position: the
semantics of `Map.set` on a JS `Map`. -/
def upsertBy {α : Type} (key : α → String) (x : α) : List α → List α
  | [] => [x]
  | y :: ys => if key y = key x then x :: ys else y :: upsertBy key x ys

/-- Build a JS `Map`'s value list (insertion order, later sets overwrite). -/
def buildMapBy {α : Type} (key : α → String) (l : List α) : List α :=
  l.foldl (fun acc x => upsertBy key x acc) []

/-- A `RouterEngine` instance: its `agents` and `skillFiles` maps, as value
lists in insertion order. -/
structure RouterEngine where
  agents : List Agent
  skillFiles : List SkillFile
  deriving Repr, DecidableEq

/-- The `RouterEngine` constructor over explicit agent / skill-file lists. -/
def mkEngine (agents : List Agent) (skillFiles : List SkillFile) :
    RouterEngine :=
  ⟨buildMapBy Agent.id agents, buildMapBy SkillFile.id skillFiles⟩

/-- The engine built with the constructor's default arguments
(`STATIC_AGENTS`, `STATIC_SKILL_FILES`). -/
def staticEngine : RouterEngine := mkEngine staticAgents staticSkillFiles

/-- Step (3)+JS falsiness: `topScore?.agent || FALLBACK_AGENT`. -/
def defaultSelectedAgent (msg : String) : String :=
  match (scoreMessage msg).head? with
  | some t => if t.agent = "" then fallbackAgent else t.agent
  | none => fallbackAgent

/-- Steps (3)–(4) of `route`: top-scoring agent, overridden to `"planning"`
for complex tasks when the planning agent scores at least 20. -/
def selectedAgentOf (msg : String) : String :=
  let s0 := defaultSelectedAgent msg
  if (assessComplexity msg none).level = Level.complex ∧ s0 ≠ "planning" then
    match (scoreMessage msg).find? (fun a => a.agent == "planning") with
    | some ps => if ps.score ≥ 20 then "planning" else s0
    | none => s0
  else s0

/-- Step (5) of `route`: up to 5 matched keywords of the TOP-scoring agent
(`topScore?.matches.slice(0, 5)` — not the post-override selection). -/
def matchedKeywordsOf (msg : String) : List String :=
  match (scoreMessage msg).head? with
  | some t => (t.matches'.take 5).map (fun m => m.keyword)
  | none => []

/-- `RouterEngine.estimateCost`: JS falsiness of `!agent?.costPerToken`
covers a missing agent, a missing price, and a zero price. -/
def engineEstimateCost (eng : RouterEngine) (agentId : String)
    (complexity : ComplexityAssessment) : ℚ :=
  match (eng.agents.find? (fun a => a.id == agentId)).bind Agent.costPerToken with
  | none => 1/2
  | some cpt =>
    if cpt = 0 then 1/2
    else
      let tokens : ℚ := complexity.estimatedTokens
      let baseCost := tokens / 1000 * cpt
      let multiplier : ℚ :=
        match complexity.level with
        | .simple => 1
        | .moderate => 3/2
        | .complex => 5/2
      baseCost * multiplier

/-- `RouterEngine.findRelevantSkills`: skills of the selected agent whose
keyword set overlaps the matched keywords (mutual `includes`), first 3. -/
def findRelevantSkills (eng : RouterEngine) (agentId : String)
    (keywords : List String) : List String :=
  ((eng.skillFiles.filter
      (fun sk =>
        sk.agent == agentId &&
        sk.keywords.any (fun k =>
          keywords.any (fun mk => strIncludes mk k || strIncludes k mk)))).map
    SkillFile.id).take 3

/-- `RouterEngine.buildReason`. -/
def buildReason (agent : String) (keywords : List String) (confidence : ℚ)
    (complexity : String) : String :=
  if keywords.length = 0 then
    "Routed to " ++ agent ++ " (fallback, low keyword match)"
  else
    let keywordList := String.intercalate ", " (keywords.take 3)
    let confidenceLevel : String :=
      if confidence ≥ 3/4 then "high"
      else if confidence ≥ 1/2 then "medium" else "low"
    "Keywords: " ++ keywordList ++ " matched " ++ agent ++ " agent (" ++
      confidenceLevel ++ " confidence, " ++ complexity ++ " complexity)"

/-- `Math.round(x * 100) / 100` (x ≥ 0 in every use site). -/
def round2 (q : ℚ) : ℚ := ((Int.floor (q * 100 + 1/2) : ℚ)) / 100

/-- `RouterEngine.route`. `latency` stands for the measured
`performance.now()` difference and `timestamp` for `new Date().toISOString()`:
the only impure inputs. -/
def route (eng : RouterEngine) (message : String) (latency : ℚ)
    (timestamp : String) : RoutingDecision :=
  { agent := selectedAgentOf message
    confidence := round2 (getConfidenceScore (scoreMessage message))
    reason := buildReason (selectedAgentOf message) (matchedKeywordsOf message)
      (getConfidenceScore (scoreMessage message))
      (levelToString (assessComplexity message none).level)
    skillFilesUsed := findRelevantSkills eng (selectedAgentOf message)
      (matchedKeywordsOf message)
    estimatedCost := round2 (engineEstimateCost eng (selectedAgentOf message)
      (assessComplexity message none))
    complexity := levelToString (assessComplexity message none).level
    latency := latency
    timestamp := timestamp
    matchedKeywords := matchedKeywordsOf message }

/-! ### RoutingCache (`cache.ts`) -/

/-- `CachedRoutingDecision`: the only fields a cache entry stores.
`timestamp` is epoch milliseconds (`Date.now()`), `ttl` is in seconds. -/
structure CachedRoutingDecision where
  agent : String
  confidence : ℚ
  reason : String
  timestamp : ℤ
  ttl : ℤ
  hash : String
  deriving Repr, DecidableEq

/-- `RoutingCache.isExpired`, with `Date.now()` passed in as `now`. -/
def isExpired (now : ℤ) (decision : CachedRoutingDecision) : Bool :=
  now - decision.timestamp > decision.ttl * 1000

/-- The two storage tiers a `RoutingCache` reads: the in-memory `Map` and the
durable KV namespace (deserialized values, keyed as stored). -/
structure CacheState where
  memory : List (String × CachedRoutingDecision)
  kv : List (String × CachedRoutingDecision)
  deriving Repr, DecidableEq

/-- JS `Map.get`. -/
def lookupBy {α : Type} (m : List (String × α)) (k : String) : Option α :=
  (m.find? (fun p => p.1 == k)).map (fun p => p.2)

/-- The KV fallback of `RoutingCache.get`: reads `routing:<hash>`, and on a
fresh hit restores the entry into the memory tier. -/
def cacheGetKV (st : CacheState) (now : ℤ) (messageHash : String) :
    Option CachedRoutingDecision × CacheState :=
  match lookupBy st.kv ("routing:" ++ messageHash) with
  | some kvCached =>
    if isExpired now kvCached = false then
      (some kvCached,
       { st with
          memory := upsertBy (fun p => p.1) (messageHash, kvCached) st.memory })
    else (none, st)
  | none => (none, st)

/-- `RoutingCache.get`: memory tier first, then the KV tier; an entry whose
`isExpired` check fires is skipped in either tier. (The hit/miss counters do
not influence the returned entry and are not modelled.) -/
def cacheGet (st : CacheState) (now : ℤ) (messageHash : String) :
    Option CachedRoutingDecision × CacheState :=
  match lookupBy st.memory messageHash with
  | some cached =>
    if isExpired now cached = false then (some cached, st)
    else cacheGetKV st now messageHash
  | none => cacheGetKV st now messageHash

/-- `RoutingCache.set`: write both tiers (the KV write also passes
`expirationTtl = CACHE_TTL_SECONDS`, which only matters to the store). -/
def cacheSet (st : CacheState) (messageHash : String)
    (decision : CachedRoutingDecision) : CacheState :=
  { memory := upsertBy (fun p => p.1) (messageHash, decision) st.memory
    kv := upsertBy (fun p => p.1) ("routing:" ++ messageHash, decision) st.kv }

/-! ### The `POST /api/route` handler (`index.ts`) -/

/-- The handler's `routingDecision` is untyped (`any`): after a cache hit it
only has the `CachedRoutingDecision` fields; after a fresh route it has all
`RoutingDecision` fields. Absent fields are `undefined` (`none`). The cached
`timestamp` is a number, the fresh one a string, hence the sum. -/
structure LooseDecision where
  agent : String
  confidence : ℚ
  reason : String
  skillFilesUsed : Option (List String)
  estimatedCost : Option ℚ
  complexity : Option String
  timestamp : Option (ℤ ⊕ String)
  matchedKeywords : Option (List String)
  deriving Repr, DecidableEq

def looseOfCached (c : CachedRoutingDecision) : LooseDecision :=
  ⟨c.agent, c.confidence, c.reason, none, none, none, some (.inl c.timestamp),
   none⟩

def looseOfDecision (d : RoutingDecision) : LooseDecision :=
  ⟨d.agent, d.confidence, d.reason, some d.skillFilesUsed,
   some d.estimatedCost, some d.complexity, some (.inr d.timestamp),
   some d.matchedKeywords⟩

/-- The JSON body the handler returns on success. -/
structure RouteResponse where
  agent : String
  confidence : ℚ
  reason : String
  skillFilesUsed : List String
  estimatedCost : ℚ
  complexity : String
  latency : ℚ
  timestamp : ℤ ⊕ String
  cached : Bool
  matchedKeywords : List String
  deriving Repr, DecidableEq

/-- JS `x || d` on a number: `0` is falsy. -/
def orNum (x : Option ℚ) (d : ℚ) : ℚ :=
  match x with
  | some v => if v = 0 then d else v
  | none => d

/-- JS `x || d` on a string: `""` is falsy. -/
def orStr (x : Option String) (d : String) : String :=
  match x with
  | some v => if v = "" then d else v
  | none => d

/-- JS `x || d` on the timestamp field: `0` and `""` are falsy. -/
def orTs (x : Option (ℤ ⊕ String)) (d : String) : ℤ ⊕ String :=
  match x with
  | some (.inl n) => if n = 0 then .inr d else .inl n
  | some (.inr s) => if s = "" then .inr d else .inr s
  | none => .inr d

/-- The response-building tail of the handler (`c.json({...}, 200)`), with the
`||` defaults of the source. `nowIso` stands for `new Date().toISOString()`. -/
def buildRouteResponse (d : LooseDecision) (latency : ℚ) (cached : Bool)
    (nowIso : String) : RouteResponse :=
  { agent := d.agent
    confidence := d.confidence
    reason := d.reason
    skillFilesUsed := d.skillFilesUsed.getD []
    estimatedCost := orNum d.estimatedCost 0
    complexity := orStr d.complexity "unknown"
    latency := latency
    timestamp := orTs d.timestamp nowIso
    cached := cached
    matchedKeywords := d.matchedKeywords.getD [] }

/-- The handler's validation plus routing pipeline, for one request.
`hashFn` abstracts the SHA-256 hex digest, `now`/`nowIso`/`latency`/
`timestamp` the clock reads. Rejection (`.error`) models the 400
`INVALID_REQUEST` response; it happens before the cache read and before any
scoring. -/
def handleRoute (eng : RouterEngine) (st : CacheState)
    (hashFn : String → String) (now : ℤ) (nowIso : String) (latency : ℚ)
    (timestamp : String) (message? : Option String) :
    Except String RouteResponse :=
  match message? with
  | none => .error "INVALID_REQUEST"
  | some message =>
    if message = "" then .error "INVALID_REQUEST"
    else
      let messageHash := hashFn message
      match (cacheGet st now messageHash).1 with
      | some cachedDecision =>
        .ok (buildRouteResponse (looseOfCached cachedDecision) latency true
          nowIso)
      | none =>
        let decision := route eng message latency timestamp
        .ok (buildRouteResponse (looseOfDecision decision) latency false
          nowIso)

/-! ### Concrete instances used in counterexamples and witnesses -/

/-- An engine whose registry holds no agents at all (hence zero enabled). -/
def emptyEngine : RouterEngine := mkEngine [] []

/-- The static agents with every `enabled` flag cleared. -/
def disabledAgents : List Agent :=
  staticAgents.map (fun a => { a with enabled := false })

/-- An engine whose registry holds the four static agents, all disabled. -/
def disabledEngine : RouterEngine := mkEngine disabledAgents staticSkillFiles

/-- The input text of the spec's multi-domain routing scenario. -/
def paymentText : String := "Design a secure payment API with caching"

/-- `paymentText` lowercased. -/
def paymentLower : String := "design a secure payment api with caching"

/-- The token list of `paymentText`. -/
def paymentTokens : List String :=
  ["design", "secure", "payment", "api", "with", "caching"]

/-- The value of `scoreMessage paymentText`: codegen, planning and security
tie at 1.0 (one token hit plus its substring hit each), infrastructure gets
0, and the stable sort keeps the `KEYWORD_SETS` order on the tie. -/
def paymentScores : List AgentScore :=
  [ ⟨"codegen", 1, [⟨"api", "codegen", 17/20, "implementation"⟩],
      "implementation"⟩,
    ⟨"planning", 1, [⟨"design", "planning", 17/20, "strategy"⟩], "strategy"⟩,
    ⟨"security", 1, [⟨"secure", "security", 17/20, "security"⟩], "security"⟩,
    ⟨"infrastructure", 0, [], "operations"⟩ ]

/-- A task naming 21 codegen keywords and 20 planning keywords: codegen tops
the scoring, complexity is complex, and the planning score reaches the
override bar of 20. -/
def overrideText : String :=
  "implement build code develop create write function method class " ++
  "component api endpoint route debug fix error bug optimize refactor " ++
  "performance test plan strategy roadmap timeline project workflow " ++
  "process architecture design proposal requirement scope milestone " ++
  "deadline goal objective task deliverable stakeholder team"

/-- The 21 codegen keywords of `overrideText`, in `KEYWORD_SETS` order. -/
def overrideCodegenKeywords : List String :=
  ["implement", "build", "code", "develop", "create", "write", "function",
   "method", "class", "component", "api", "endpoint", "route", "debug",
   "fix", "error", "bug", "optimize", "refactor", "performance", "test"]

/-- The 20 planning keywords of `overrideText`, in `KEYWORD_SETS` order. -/
def overridePlanningKeywords : List String :=
  ["plan", "strategy", "roadmap", "timeline", "project", "workflow",
   "process", "architecture", "design", "proposal", "requirement", "scope",
   "milestone", "deadline", "goal", "objective", "task", "deliverable",
   "stakeholder", "team"]

/-- The value of `scoreMessage overrideText`, written out: codegen scores
21.15 (21 token hits and a stray substring hit of `"go"` inside `"goal"`),
planning scores exactly 20 — the override bar — and the others 0. -/
def overrideScores : List AgentScore :=
  [ ⟨"codegen", 423/20,
      overrideCodegenKeywords.map
        (fun kw => ⟨kw, "codegen", 17/20, "implementation"⟩),
      "implementation"⟩,
    ⟨"planning", 20,
      overridePlanningKeywords.map
        (fun kw => ⟨kw, "planning", 17/20, "strategy"⟩),
      "strategy"⟩,
    ⟨"security", 0, [], "security"⟩,
    ⟨"infrastructure", 0, [], "operations"⟩ ]

/-- A fresh cache entry: written at epoch 0 with a 3600 s TTL. -/
def demoEntry : CachedRoutingDecision :=
  ⟨"codegen", Rat.divInt 85 100, "Test", 0, 3600, "k"⟩

/-- A cache state holding `demoEntry` in the memory tier under hash `"k"`. -/
def demoCache : CacheState := ⟨[("k", demoEntry)], []⟩

/-- A cache state with both tiers empty. -/
def emptyCache : CacheState := ⟨[], []⟩

/-! ### Helper lemmas -/

theorem mem_insertDescBy {α : Type} (f : α → ℚ) (x y : α) (l : List α)
    (h : y ∈ insertDescBy f x l) : y = x ∨ y ∈ l := by
  induction l with
  | nil => simpa [insertDescBy] using h
  | cons z zs ih =>
    rw [insertDescBy] at h
    split at h
    · rcases List.mem_cons.mp h with h1 | h1
      · exact Or.inr (List.mem_cons.mpr (Or.inl h1))
      · rcases ih h1 with h2 | h2
        · exact Or.inl h2
        · exact Or.inr (List.mem_cons.mpr (Or.inr h2))
    · rcases List.mem_cons.mp h with h1 | h1
      · exact Or.inl h1
      · exact Or.inr h1

theorem mem_sortDescBy_aux {α : Type} (f : α → ℚ) (l acc : List α) (y : α)
    (h : y ∈ l.foldl (fun a x => insertDescBy f x a) acc) :
    y ∈ acc ∨ y ∈ l := by
  induction l generalizing acc with
  | nil => exact Or.inl h
  | cons z zs ih =>
    rw [List.foldl_cons] at h
    rcases ih (insertDescBy f z acc) h with h1 | h1
    · rcases mem_insertDescBy f z y acc h1 with h2 | h2
      · exact Or.inr (h2 ▸ List.mem_cons_self z zs)
      · exact Or.inl h2
    · exact Or.inr (List.mem_cons.mpr (Or.inr h1))

theorem mem_sortDescBy {α : Type} (f : α → ℚ) (l : List α) (y : α)
    (h : y ∈ sortDescBy f l) : y ∈ l := by
  rcases mem_sortDescBy_aux f l [] y h with h1 | h1
  · simp at h1
  · exact h1

theorem length_insertDescBy {α : Type} (f : α → ℚ) (x : α) (l : List α) :
    (insertDescBy f x l).length = l.length + 1 := by
  induction l with
  | nil => rfl
  | cons z zs ih =>
    rw [insertDescBy]
    split <;> simp [ih]

theorem length_sortDescBy_aux {α : Type} (f : α → ℚ) (l acc : List α) :
    (l.foldl (fun a x => insertDescBy f x a) acc).length =
      acc.length + l.length := by
  induction l generalizing acc with
  | nil => simp
  | cons z zs ih =>
    rw [List.foldl_cons, ih, length_insertDescBy, List.length_cons]
    omega

theorem length_sortDescBy {α : Type} (f : α → ℚ) (l : List α) :
    (sortDescBy f l).length = l.length := by
  have := length_sortDescBy_aux f l []
  simpa [sortDescBy] using this

/-- Each keyword step only adds nonnegative amounts to the running total. -/
theorem keywordStep_total_mono (normalizedText : String)
    (allKeywords : List String) (agentId domain : String)
    (acc : List KeywordMatch × ℚ) (kw : String) :
    acc.2 ≤ (keywordStep normalizedText allKeywords agentId domain acc kw).2 := by
  by_cases h1 : kw ∈ allKeywords <;>
    by_cases h2 : strIncludes normalizedText kw = true <;>
      simp [keywordStep, h1, h2, defaultConfidence, keywordWeight,
        compoundKeywordBoost] <;>
        linarith

theorem scoreDomain_foldl_nonneg (normalizedText : String)
    (allKeywords : List String) (agentId domain : String)
    (keywords : List String) (acc : List KeywordMatch × ℚ) (h : 0 ≤ acc.2) :
    0 ≤ (keywords.foldl
      (keywordStep normalizedText allKeywords agentId domain) acc).2 := by
  induction keywords generalizing acc with
  | nil => exact h
  | cons kw kws ih =>
    rw [List.foldl_cons]
    exact ih _ (le_trans h
      (keywordStep_total_mono normalizedText allKeywords agentId domain acc kw))

/-- A domain's score contribution is nonnegative. -/
theorem scoreDomain_nonneg (normalizedText : String)
    (allKeywords : List String) (agentId domain : String)
    (keywords : List String) :
    0 ≤ (scoreDomain normalizedText allKeywords agentId domain keywords).2 :=
  scoreDomain_foldl_nonneg normalizedText allKeywords agentId domain keywords
    ([], 0) le_rfl

/-- The per-agent total is nonnegative. -/
theorem scoreAgentEntry_total_nonneg (normalizedText : String)
    (allKeywords : List String)
    (domains : List (String × List String)) (agentId : String)
    (acc : List KeywordMatch × ℚ × List (String × ℚ)) (h : 0 ≤ acc.2.1) :
    0 ≤ (domains.foldl
      (fun (acc : List KeywordMatch × ℚ × List (String × ℚ)) d =>
        let ds := scoreDomain normalizedText allKeywords agentId d.1 d.2
        (acc.1 ++ ds.1, acc.2.1 + ds.2, acc.2.2 ++ [(d.1, ds.2)])) acc).2.1 := by
  induction domains generalizing acc with
  | nil => exact h
  | cons d ds ih =>
    rw [List.foldl_cons]
    exact ih _ (by
      dsimp only
      have := scoreDomain_nonneg normalizedText allKeywords agentId d.1 d.2
      linarith)

/-- Every `AgentScore` produced by the per-agent scorer lies in `[0, 100]`. -/
theorem scoreAgentEntry_score_bounds (normalizedText : String)
    (allKeywords : List String) (entry : String × List (String × List String)) :
    0 ≤ (scoreAgentEntry normalizedText allKeywords entry).score ∧
      (scoreAgentEntry normalizedText allKeywords entry).score ≤ 100 := by
  rw [scoreAgentEntry]
  dsimp only
  constructor
  · apply le_min
    · norm_num
    · have h0 := scoreAgentEntry_total_nonneg normalizedText allKeywords
        entry.2 entry.1 ([], 0, []) le_rfl
      positivity
  · exact min_le_left _ _

/-- Every score in `scoreMessage`'s output lies in `[0, 100]`. -/
theorem scoreMessage_score_bounds (text : String) (s : AgentScore)
    (h : s ∈ scoreMessage text) : 0 ≤ s.score ∧ s.score ≤ 100 := by
  rw [scoreMessage] at h
  have h1 := mem_sortDescBy _ _ _ h
  rcases List.mem_map.mp h1 with ⟨entry, _, rfl⟩
  exact scoreAgentEntry_score_bounds _ _ entry

/-- The four agent ids of `KEYWORD_SETS`. -/
def keywordAgentIds : List String :=
  ["codegen", "planning", "security", "infrastructure"]

/-- Every `AgentScore` produced by `scoreMessage` names a `KEYWORD_SETS`
agent. -/
theorem scoreMessage_agent_mem (text : String) (s : AgentScore)
    (h : s ∈ scoreMessage text) : s.agent ∈ keywordAgentIds := by
  rw [scoreMessage] at h
  have h1 := mem_sortDescBy _ _ _ h
  rcases List.mem_map.mp h1 with ⟨entry, hentry, rfl⟩
  have hagent : (scoreAgentEntry (jsLower text)
      (tokenize (jsLower text) ++ extractCompoundKeywords (jsLower text))
      entry).agent = entry.1 := rfl
  rw [hagent]
  simp only [keywordSets, List.mem_cons, List.not_mem_nil, or_false] at hentry
  rcases hentry with rfl | rfl | rfl | rfl <;> simp [keywordAgentIds]

/-- The selected agent of a routing decision is always one of the four
`KEYWORD_SETS` ids, whatever the registry holds. -/
theorem selectedAgentOf_mem (msg : String) :
    selectedAgentOf msg ∈ keywordAgentIds := by
  have hmem := scoreMessage_agent_mem msg
  unfold selectedAgentOf defaultSelectedAgent
  generalize hsc : scoreMessage msg = scores at hmem ⊢
  generalize assessComplexity msg none = ca
  clear hsc
  have hdef : (match scores.head? with
      | some t => if t.agent = "" then fallbackAgent else t.agent
      | none => fallbackAgent) ∈ keywordAgentIds := by
    rcases scores with _ | ⟨t, rest⟩
    · simp [fallbackAgent, keywordAgentIds]
    · have := hmem t (List.mem_cons_self t rest)
      simp only [List.head?_cons]
      split
      · simp [fallbackAgent, keywordAgentIds]
      · exact this
  dsimp only
  split
  · rcases hf : scores.find? (fun a => a.agent == "planning") with _ | ⟨ps⟩
    · simp only [hf]
      exact hdef
    · simp only [hf]
      by_cases hps : ps.score ≥ 20
      · simp [hps, keywordAgentIds]
      · simp only [hps, if_false]
        exact hdef
  · exact hdef

/-- `getConfidenceScore` maps any list of in-range scores into `[0, 1]`. -/
theorem getConfidenceScore_bounds (scores : List AgentScore)
    (hb : ∀ s ∈ scores, 0 ≤ s.score ∧ s.score ≤ 100) :
    0 ≤ getConfidenceScore scores ∧ getConfidenceScore scores ≤ 1 := by
  rcases scores with _ | ⟨top, rest⟩
  · simp [getConfidenceScore]
  · obtain ⟨h0, h100⟩ := hb top (List.mem_cons_self top rest)
    simp only [getConfidenceScore]
    split
    · constructor
      · apply le_min
        · norm_num
        · nlinarith
      · calc min (95/100 : ℚ) _ ≤ 95/100 := min_le_left _ _
          _ ≤ 1 := by norm_num
    · split
      · constructor
        · nlinarith
        · nlinarith
      · constructor
        · apply le_min
          · norm_num
          · positivity
        · calc min (1/2 : ℚ) _ ≤ 1/2 := min_le_left _ _
            _ ≤ 1 := by norm_num

/-- `Math.round(q * 100) / 100` stays inside `[0, 1]`. -/
theorem round2_bounds (q : ℚ) (h0 : 0 ≤ q) (h1 : q ≤ 1) :
    0 ≤ round2 q ∧ round2 q ≤ 1 := by
  rw [round2]
  constructor
  · apply div_nonneg _ (by norm_num)
    have : (0 : ℤ) ≤ Int.floor (q * 100 + 1/2) := by
      apply Int.floor_nonneg.mpr
      linarith
    exact_mod_cast this
  · rw [div_le_one (by norm_num : (0:ℚ) < 100)]
    have h2 : (Int.floor (q * 100 + 1/2) : ℚ) ≤ q * 100 + 1/2 :=
      Int.floor_le _
    have h3 : ((Int.floor (q * 100 + 1/2) : ℤ) : ℚ) < 101 := by
      linarith
    have h4 : Int.floor (q * 100 + 1/2) < (101 : ℤ) := by exact_mod_cast h3
    have h5 : Int.floor (q * 100 + 1/2) ≤ (100 : ℤ) := by omega
    exact_mod_cast h5

/-- A lemma-shaped reading of `findRelevantSkills`: at most 3 ids, each id
naming a skill file of the engine's registry owned by the queried agent. -/
theorem findRelevantSkills_spec (eng : RouterEngine) (aid : String)
    (kws : List String) :
    (findRelevantSkills eng aid kws).length ≤ 3 ∧
    ∀ id ∈ findRelevantSkills eng aid kws,
      ∃ sk ∈ eng.skillFiles, sk.id = id ∧ sk.agent = aid := by
  constructor
  · rw [findRelevantSkills, List.length_take]
    exact min_le_left _ _
  · intro id hid
    rw [findRelevantSkills] at hid
    have h1 := List.take_subset _ _ hid
    rcases List.mem_map.mp h1 with ⟨sk, hsk, rfl⟩
    have h2 := List.mem_filter.mp hsk
    refine ⟨sk, h2.1, rfl, ?_⟩
    have h3 := h2.2
    rw [Bool.and_eq_true] at h3
    exact eq_of_beq h3.1

/-- The matched keywords of a decision: at most 5, each the keyword of one of
the matches of the first (top-scoring) entry of `scoreMessage`. -/
theorem matchedKeywordsOf_spec (msg : String) :
    (matchedKeywordsOf msg).length ≤ 5 ∧
    ∀ k ∈ matchedKeywordsOf msg,
      ∃ ts, (scoreMessage msg).head? = some ts ∧
        ∃ m ∈ ts.matches', m.keyword = k := by
  unfold matchedKeywordsOf
  generalize hh : (scoreMessage msg).head? = oh
  rcases oh with _ | ⟨ts⟩
  · simp
  · constructor
    · rw [List.length_map, List.length_take]
      exact le_trans (min_le_left _ _) (by norm_num)
    · intro k hk
      rcases List.mem_map.mp hk with ⟨m, hm, rfl⟩
      exact ⟨ts, rfl, m, List.take_subset _ _ hm, rfl⟩

/-! ### Claim theorems -/

/-- Claim C9 (confirmed): with the registry snapshot and the input text fixed,
two calls of `RouterEngine.route` agree on `agent`, `complexity` and
`matchedKeywords`; the clock inputs (`latency`, `timestamp`) are the only
free parameters and do not influence those fields. -/
theorem route_deterministic (eng : RouterEngine) (msg : String)
    (l1 l2 : ℚ) (t1 t2 : String) :
    (route eng msg l1 t1).agent = (route eng msg l2 t2).agent ∧
    (route eng msg l1 t1).complexity = (route eng msg l2 t2).complexity ∧
    (route eng msg l1 t1).matchedKeywords =
      (route eng msg l2 t2).matchedKeywords :=
  ⟨rfl, rfl, rfl⟩

/-- Claim C6 (confirmed): for every input text, the confidence derived from
`scoreMessage` via `getConfidenceScore` lies in `[0, 1]`, the assessed level
is one of simple / moderate / complex, and the fields of the resulting
`RoutingDecision` satisfy the same bounds. -/
theorem confidence_and_complexity_in_range (eng : RouterEngine) (msg : String)
    (latency : ℚ) (timestamp : String) :
    (0 ≤ getConfidenceScore (scoreMessage msg) ∧
      getConfidenceScore (scoreMessage msg) ≤ 1) ∧
    ((assessComplexity msg none).level = Level.simple ∨
      (assessComplexity msg none).level = Level.moderate ∨
      (assessComplexity msg none).level = Level.complex) ∧
    (0 ≤ (route eng msg latency timestamp).confidence ∧
      (route eng msg latency timestamp).confidence ≤ 1) ∧
    (route eng msg latency timestamp).complexity ∈
      (["simple", "moderate", "complex"] : List String) := by
  have hcs := getConfidenceScore_bounds (scoreMessage msg)
    (fun s hs => scoreMessage_score_bounds msg s hs)
  refine ⟨hcs, ?_, ?_, ?_⟩
  · cases (assessComplexity msg none).level <;> simp
  · exact round2_bounds _ hcs.1 hcs.2
  · show levelToString (assessComplexity msg none).level ∈ _
    cases (assessComplexity msg none).level <;> simp [levelToString]

/-- Claim C7 (confirmed): every routing decision references at most 3 skill
files, and each referenced id names a skill file of the engine's registry
whose owning agent is the decision's agent. -/
theorem skill_files_belong_to_selected_agent (eng : RouterEngine)
    (msg : String) (latency : ℚ) (timestamp : String) :
    (route eng msg latency timestamp).skillFilesUsed.length ≤ 3 ∧
    ∀ id ∈ (route eng msg latency timestamp).skillFilesUsed,
      ∃ sk ∈ eng.skillFiles, sk.id = id ∧
        sk.agent = (route eng msg latency timestamp).agent :=
  findRelevantSkills_spec eng (selectedAgentOf msg) (matchedKeywordsOf msg)

/-- Claim C4 (amended, proved): `matchedKeywords` holds at most 5 keywords,
each taken from the `AgentScore` of the TOP-scoring agent of `scoreMessage`
(the pre-override selection) — not of the finally selected agent. -/
theorem matched_keywords_from_top_score (eng : RouterEngine) (msg : String)
    (latency : ℚ) (timestamp : String) :
    (route eng msg latency timestamp).matchedKeywords.length ≤ 5 ∧
    ∀ k ∈ (route eng msg latency timestamp).matchedKeywords,
      ∃ ts, (scoreMessage msg).head? = some ts ∧
        ∃ m ∈ ts.matches', m.keyword = k :=
  matchedKeywordsOf_spec msg

/-- `overrideText` is already lowercase. (Proved once so that later
evaluations do not re-run the lowering at every use site.) -/
theorem overrideLower_eq : jsLower overrideText = overrideText := by
  with_unfolding_all decide

set_option maxHeartbeats 1000000 in
/-- The tokens of `overrideText` are its 41 keywords. -/
theorem overrideTokens_eq :
    tokenize overrideText =
      overrideCodegenKeywords ++ overridePlanningKeywords := by
  with_unfolding_all decide

set_option maxHeartbeats 1000000 in
/-- No compound pattern occurs in `overrideText`. -/
theorem overrideCompounds_eq :
    extractCompoundKeywords overrideText = [] := by
  with_unfolding_all decide

set_option maxHeartbeats 4000000 in
/-- Evaluating the keyword scorer on `overrideText` (staged through the
token-list and compound-list evaluations, so each is run once). -/
theorem overrideScores_eq : scoreMessage overrideText = overrideScores := by
  simp only [scoreMessage]
  rw [overrideLower_eq, overrideTokens_eq, overrideCompounds_eq]
  with_unfolding_all decide

set_option maxHeartbeats 4000000 in
/-- `overrideText` is assessed as complex. -/
theorem overrideLevel_eq :
    (assessComplexity overrideText none).level = Level.complex := by
  simp only [assessComplexity]
  rw [overrideLower_eq]
  with_unfolding_all decide

/-- Claim C4 (counterexample): on `overrideText` the complexity override
switches the decision to the planning agent, yet `matchedKeywords` still
starts with `"implement"` — a keyword that appears in no `KeywordMatch` of
the planning agent's `AgentScore`. -/
theorem matched_keywords_counterexample :
    (route staticEngine overrideText 0 "t").agent = "planning" ∧
    "implement" ∈ (route staticEngine overrideText 0 "t").matchedKeywords ∧
    ∀ s ∈ scoreMessage overrideText, s.agent = "planning" →
      ∀ m ∈ s.matches', m.keyword ≠ "implement" := by
  refine ⟨?_, ?_, ?_⟩
  · show selectedAgentOf overrideText = "planning"
    unfold selectedAgentOf defaultSelectedAgent
    rw [overrideScores_eq, overrideLevel_eq]
    with_unfolding_all decide
  · show "implement" ∈ matchedKeywordsOf overrideText
    unfold matchedKeywordsOf
    rw [overrideScores_eq]
    with_unfolding_all decide
  · rw [overrideScores_eq]
    with_unfolding_all decide

/-- Claim C1 (amended, proved): under the default static registry, the
decision's agent is the id of an agent that is present and enabled — because
the selected agent is always one of the four fixed `KEYWORD_SETS` ids, which
the static registry happens to contain enabled. -/
theorem route_agent_enabled_in_static_registry (msg : String) (latency : ℚ)
    (timestamp : String) :
    ∃ a ∈ staticEngine.agents,
      a.id = (route staticEngine msg latency timestamp).agent ∧
      a.enabled = true := by
  have hm := selectedAgentOf_mem msg
  show ∃ a ∈ staticEngine.agents, a.id = selectedAgentOf msg ∧
    a.enabled = true
  simp only [keywordAgentIds, List.mem_cons, List.not_mem_nil, or_false]
    at hm
  rcases hm with h | h | h | h <;> rw [h] <;> with_unfolding_all decide

/-- Claim C1 (counterexample): with an empty registry (no agents at all),
`route` still answers `"codegen"` — an id present in no registry entry, so
the decision's agent is not an agent of the registry at decision time. -/
theorem agent_not_in_registry_counterexample :
    (route emptyEngine "implement the code" 0 "t").agent = "codegen" ∧
    emptyEngine.agents = [] :=
  ⟨by with_unfolding_all decide, rfl⟩

/-- Claim C2 (amended, proved): `route` has no configuration-error path at
all: over any registry contents it returns a decision naming one of the four
fixed keyword-set ids, and the selection is completely independent of the
registry (it equals the static-registry selection). -/
theorem route_total_ignores_registry (agents : List Agent)
    (skills : List SkillFile) (msg : String) (latency : ℚ)
    (timestamp : String) :
    (route (mkEngine agents skills) msg latency timestamp).agent ∈
      keywordAgentIds ∧
    (route (mkEngine agents skills) msg latency timestamp).agent =
      (route staticEngine msg latency timestamp).agent :=
  ⟨selectedAgentOf_mem msg, rfl⟩

/-- Claim C2 (counterexample): a registry whose four agents are all disabled
has zero enabled agents, yet `route` does not fail with a configuration
error — it returns a normal decision naming `"codegen"`. -/
theorem zero_enabled_agents_counterexample :
    (∀ a ∈ disabledEngine.agents, a.enabled = false) ∧
    (route disabledEngine "implement the function" 0 "t").agent =
      "codegen" :=
  ⟨by with_unfolding_all decide, by with_unfolding_all decide⟩

/-- `paymentText` lowercased, evaluated once. -/
theorem paymentLower_eq : jsLower paymentText = paymentLower := by
  with_unfolding_all decide

/-- The tokens of `paymentText`, evaluated once. -/
theorem paymentTokens_eq : tokenize paymentLower = paymentTokens := by
  with_unfolding_all decide

/-- No compound pattern occurs in `paymentText`. -/
theorem paymentCompounds_eq : extractCompoundKeywords paymentLower = [] := by
  with_unfolding_all decide

set_option maxHeartbeats 1000000 in
/-- Evaluating the keyword scorer on `paymentText` (staged). -/
theorem paymentScores_eq : scoreMessage paymentText = paymentScores := by
  simp only [scoreMessage]
  rw [paymentLower_eq, paymentTokens_eq, paymentCompounds_eq]
  with_unfolding_all decide

set_option maxHeartbeats 1000000 in
/-- `paymentText` is assessed as simple (complexity score 2). -/
theorem paymentLevel_eq :
    (assessComplexity paymentText none).level = Level.simple := by
  simp only [assessComplexity]
  rw [paymentLower_eq]
  with_unfolding_all decide

/-- Claim C3 (counterexample): on `"Design a secure payment API with
caching"` the top-scored candidate of `scoreMessage` is codegen (security
only ties the top score, and the stable sort keeps codegen first), the
routing goes to codegen, and `assessComplexity` returns simple — not at
least moderate. -/
theorem payment_scenario_counterexample :
    (scoreMessage paymentText).head?.map AgentScore.agent = some "codegen" ∧
    (assessComplexity paymentText none).level = Level.simple ∧
    (route staticEngine paymentText 0 "t").agent = "codegen" := by
  refine ⟨?_, paymentLevel_eq, ?_⟩
  · rw [paymentScores_eq]
    with_unfolding_all decide
  · show selectedAgentOf paymentText = "codegen"
    unfold selectedAgentOf defaultSelectedAgent
    rw [paymentScores_eq, paymentLevel_eq]
    with_unfolding_all decide

/-- Claim C3 (amended, proved): on that text the security agent's score ties
the maximum (so it is "top-scored" only up to the tie with codegen and
planning), the first-ranked candidate and the routed agent are codegen, and
the assessed complexity is simple. -/
theorem payment_scenario_amended :
    (∃ s ∈ scoreMessage paymentText, s.agent = "security" ∧
      ∀ s2 ∈ scoreMessage paymentText, s2.score ≤ s.score) ∧
    (scoreMessage paymentText).head?.map AgentScore.agent = some "codegen" ∧
    (assessComplexity paymentText none).level = Level.simple ∧
    (route staticEngine paymentText 0 "t").agent = "codegen" := by
  refine ⟨?_, ?_, paymentLevel_eq, ?_⟩
  · rw [paymentScores_eq]
    with_unfolding_all decide
  · rw [paymentScores_eq]
    with_unfolding_all decide
  · show selectedAgentOf paymentText = "codegen"
    unfold selectedAgentOf defaultSelectedAgent
    rw [paymentScores_eq, paymentLevel_eq]
    with_unfolding_all decide

/-- Claim C5 (amended, proved): a missing message and the empty-string
message are rejected with the `INVALID_REQUEST` client error, before the
cache read and before any scoring. -/
theorem empty_message_rejected (eng : RouterEngine) (st : CacheState)
    (hashFn : String → String) (now : ℤ) (nowIso : String) (latency : ℚ)
    (timestamp : String) :
    handleRoute eng st hashFn now nowIso latency timestamp none =
      .error "INVALID_REQUEST" ∧
    handleRoute eng st hashFn now nowIso latency timestamp (some "") =
      .error "INVALID_REQUEST" :=
  ⟨rfl, rfl⟩

/-- Claim C5 (counterexample): a whitespace-only message is NOT rejected:
`!message` only catches a missing or empty string, no trim is applied, and
the single-space message is scored and routed (to codegen, the zero-score
stable-sort winner). -/
theorem whitespace_message_routed_counterexample :
    ∃ r, handleRoute staticEngine emptyCache (fun _ => "h") 0 "now" 0 "t"
        (some " ") = Except.ok r ∧ r.agent = "codegen" := by
  refine ⟨buildRouteResponse
    (looseOfDecision (route staticEngine " " 0 "t")) 0 false "now", ?_, ?_⟩
  · rfl
  · with_unfolding_all decide

/-- Claim C8 (confirmed): whenever `RoutingCache.get` returns an entry — from
the memory tier or the KV tier — that entry's age does not exceed its TTL;
an older entry is treated as absent. -/
theorem cache_never_returns_expired (st : CacheState) (now : ℤ)
    (h : String) (c : CachedRoutingDecision)
    (hres : (cacheGet st now h).1 = some c) :
    now - c.timestamp ≤ c.ttl * 1000 := by
  have hkv : (cacheGetKV st now h).1 = some c →
      now - c.timestamp ≤ c.ttl * 1000 := by
    intro hres2
    unfold cacheGetKV at hres2
    split at hres2
    case _ kvCached heq =>
      split at hres2
      case isTrue hexp =>
        have hc : kvCached = c := by simpa using hres2
        subst hc
        have := of_decide_eq_false hexp
        omega
      case isFalse hexp => simp at hres2
    case _ heq => simp at hres2
  unfold cacheGet at hres
  split at hres
  case _ cached heq =>
    split at hres
    case isTrue hexp =>
      have hc : cached = c := by simpa using hres
      subst hc
      have := of_decide_eq_false hexp
      omega
    case isFalse hexp => exact hkv hres
  case _ heq => exact hkv hres

/-- Witness for C8: a concrete fresh entry is returned, and its age is
within its TTL. -/
theorem cache_never_returns_expired_witness :
    (cacheGet demoCache 1000 "k").1 = some demoEntry ∧
    1000 - demoEntry.timestamp ≤ demoEntry.ttl * 1000 :=
  ⟨by decide, cache_never_returns_expired demoCache 1000 "k" demoEntry
     (by decide)⟩

/-- Claim C10 (confirmed): a request served from the cache responds with the
cached agent, confidence and reason only; since the stored
`CachedRoutingDecision` has no other decision fields, the `||` defaults make
the response's complexity `"unknown"`, its skill-file and keyword lists
empty, and its estimated cost 0. -/
theorem cached_response_shape (eng : RouterEngine) (st : CacheState)
    (hashFn : String → String) (now : ℤ) (nowIso : String) (latency : ℚ)
    (timestamp : String) (m : String) (c : CachedRoutingDecision)
    (hm : ¬(m = "")) (hc : (cacheGet st now (hashFn m)).1 = some c) :
    handleRoute eng st hashFn now nowIso latency timestamp (some m) =
      .ok (buildRouteResponse (looseOfCached c) latency true nowIso) ∧
    (buildRouteResponse (looseOfCached c) latency true nowIso).agent =
      c.agent ∧
    (buildRouteResponse (looseOfCached c) latency true nowIso).confidence =
      c.confidence ∧
    (buildRouteResponse (looseOfCached c) latency true nowIso).reason =
      c.reason ∧
    (buildRouteResponse (looseOfCached c) latency true nowIso).complexity =
      "unknown" ∧
    (buildRouteResponse (looseOfCached c) latency true nowIso).skillFilesUsed
      = [] ∧
    (buildRouteResponse (looseOfCached c) latency true nowIso).matchedKeywords
      = [] ∧
    (buildRouteResponse (looseOfCached c) latency true nowIso).estimatedCost
      = 0 := by
  refine ⟨?_, rfl, rfl, rfl, rfl, rfl, rfl, rfl⟩
  simp only [handleRoute]
  rw [if_neg hm, hc]

/-- Witness for C10: a concrete cache hit produces exactly the degraded
response shape. -/
theorem cached_response_shape_witness :
    ¬(("hello" : String) = "") ∧
    (cacheGet demoCache 50 ((fun (_ : String) => "k") "hello")).1 =
      some demoEntry ∧
    (handleRoute staticEngine demoCache (fun _ => "k") 50 "now" 0 "t"
        (some "hello") =
      .ok (buildRouteResponse (looseOfCached demoEntry) 0 true "now") ∧
    (buildRouteResponse (looseOfCached demoEntry) 0 true "now").agent =
      demoEntry.agent ∧
    (buildRouteResponse (looseOfCached demoEntry) 0 true "now").confidence =
      demoEntry.confidence ∧
    (buildRouteResponse (looseOfCached demoEntry) 0 true "now").reason =
      demoEntry.reason ∧
    (buildRouteResponse (looseOfCached demoEntry) 0 true "now").complexity =
      "unknown" ∧
    (buildRouteResponse (looseOfCached demoEntry) 0 true "now").skillFilesUsed
      = [] ∧
    (buildRouteResponse (looseOfCached demoEntry) 0 true "now").matchedKeywords
      = [] ∧
    (buildRouteResponse (looseOfCached demoEntry) 0 true "now").estimatedCost
      = 0) :=
  ⟨by decide, by decide,
   cached_response_shape staticEngine demoCache (fun _ => "k") 50 "now" 0 "t"
     "hello" demoEntry (by decide) (by decide)⟩

end AgencyRouter
